import Mathlib

/-
Verification of the starter template-sync and generation pipeline
(src/main.go) against its specification.

The Go program is embedded shallowly:
- the filesystem is an association list from paths to contents, where a
  later write shadows an earlier one (lookup returns the most recent write);
- the remote (HTTP) side is a function from the fetch sequence number and
  the URL to an optional response body, so the remote may change between
  two fetches of the same URL and a fetch may fail (`none` = network error);
- JSON bodies are abstracted by the `Content` type: `Content.manifest td`
  stands for bytes that unmarshal into the template definition `td`, and
  `Content.raw s` for bytes that do not;
- every fetch and every file write is recorded in an event log, so claims
  about "zero downloads" or "every entry written" are claims about the log.
-/

set_option autoImplicit false

namespace Starter

/-- Go struct `downloadFile` from src/main.go: one downloadable template entry. -/
structure downloadFile where
  url : String
  name : String
deriving DecidableEq

/-- Go struct `templateDefinition` from src/main.go: the parsed templates.json manifest. -/
structure templateDefinition where
  version : String
  dockerfiles : List downloadFile
  serviceYmls : List downloadFile
  dockerComposeYmls : List downloadFile
deriving DecidableEq

/-- Abstraction of a file or response body: either bytes that unmarshal
into a `templateDefinition`, or bytes that do not. -/
inductive Content where
  | manifest (td : templateDefinition)
  | raw (s : String)
deriving DecidableEq

/-- Model of `json.Unmarshal` into a `templateDefinition`, on the `Content` abstraction. -/
def parseTemplateDefinition : Content → Option templateDefinition
  | Content.manifest td => some td
  | Content.raw _ => none

/-- One I/O action performed by the sync code: an HTTP fetch of a URL, or a
file write of a body to a path. -/
inductive Event where
  | fetched (url : String)
  | wrote (path : String) (body : Content)
deriving DecidableEq

/-- Errors returned by the embedded sync code. -/
inductive Err where
  | network (url : String)
  | parse
  | filesystem (path : String)
deriving DecidableEq

/-- The world the sync code acts on: local files, the remote side (indexed
by the fetch sequence number, so the remote may change between fetches),
which paths fail on write, and the log of I/O actions performed so far. -/
structure World where
  fs : List (String × Content)
  remote : Nat → String → Option Content
  fetchCount : Nat
  writeFails : String → Bool
  log : List Event

/-- Lookup in the filesystem; the head of the list is the most recent write. -/
def fsGet : List (String × Content) → String → Option Content
  | [], _ => none
  | (q, c) :: rest, p => if q = p then some c else fsGet rest p

/-- Model of `filepath.Join` restricted to the two-component joins the program uses. -/
def pathJoin (a b : String) : String := a ++ "/" ++ b

/-- The literal branch placeholder (double-braced .branch, escaped). -/
def branchPattern : String := "\x7b\x7b.branch\x7d\x7d"

/-- The `templatePath` constant from src/main.go (braces escaped). -/
def templatePath : String :=
  "https://raw.githubusercontent.com/cloud66/starter/\x7b\x7b.branch\x7d\x7d/templates/templates.json"

/-- Replace every non-overlapping occurrence of `pat` in the character list,
scanning left to right, with `fuel` bounding the recursion (structural on
the fuel so the kernel can evaluate it; each step consumes at least one
character, so fuel equal to the input length is enough). A match consumes
the whole pattern: the first matched character in the step itself and the
remaining `pat.length - 1` characters via `drop`. -/
def replaceLoop (pat rep : List Char) : Nat → List Char → List Char
  | _, [] => []
  | 0, l => l
  | Nat.succ fuel, c :: rest =>
    if pat.isPrefixOf (c :: rest) ∧ pat ≠ [] then
      rep ++ replaceLoop pat rep fuel (rest.drop (pat.length - 1))
    else c :: replaceLoop pat rep fuel rest

/-- Model of `strings.Replace(s, pat, rep, -1)` for the non-empty patterns the
program uses (on an empty pattern Go would insert `rep` between characters;
the only pattern used is the fixed non-empty `branchPattern`). -/
def replaceAll (s pat rep : String) : String :=
  ⟨replaceLoop pat.data rep.data s.data.length s.data⟩

/-- Model of `strings.Replace(s, "\x7b\x7b.branch\x7d\x7d", branch, -1)`. -/
def substBranch (branch s : String) : String := replaceAll s branchPattern branch

/-- The manifest URL for a branch, as built in `getTempaltes` (line 95). -/
def manifestURL (branch : String) : String := substBranch branch templatePath

/-- Perform one HTTP fetch: consult the remote at the current fetch
sequence number, bump the counter, log the fetch. -/
def doFetch (w : World) (url : String) : World × Option Content :=
  ({ w with fetchCount := w.fetchCount + 1, log := w.log ++ [Event.fetched url] },
   w.remote w.fetchCount url)

/-- Perform one file write (`os.Create` + `io.Copy`): fails on paths the
world marks as failing, otherwise shadows any previous file of that path
and logs the write. -/
def doWrite (w : World) (p : String) (body : Content) : World × Bool :=
  if w.writeFails p then (w, false)
  else ({ w with fs := (p, body) :: w.fs, log := w.log ++ [Event.wrote p body] }, true)

/-- Function `downloadSingleFile` from src/main.go lines 171-190: fetch the entry's
URL (with the branch substituted) and write the body to tempDir/<name>. -/
def downloadSingleFile (branch tempDir : String) (f : downloadFile) (w : World) :
    World × Option Err :=
  match doFetch w (substBranch branch f.url) with
  | (w1, none) => (w1, some (Err.network (substBranch branch f.url)))
  | (w1, some body) =>
    match doWrite w1 (pathJoin tempDir f.name) body with
    | (w2, false) => (w2, some (Err.filesystem (pathJoin tempDir f.name)))
    | (w2, true) => (w2, none)

/-- The world a successful `downloadSingleFile` produces: fetch counter
bumped, the entry's body written to tempDir/<name>, both actions logged. -/
def dsfOkWorld (branch tempDir : String) (f : downloadFile) (body : Content)
    (w : World) : World :=
  { w with fetchCount := w.fetchCount + 1,
           fs := (pathJoin tempDir f.name, body) :: w.fs,
           log := w.log ++ [Event.fetched (substBranch branch f.url),
                            Event.wrote (pathJoin tempDir f.name) body] }

/-- One of the three `for` loops of `downloadTemplates`: download each entry
in order, aborting at the first error. -/
def downloadList (branch tempDir : String) (l : List downloadFile) (w : World) :
    World × Option Err :=
  match l with
  | [] => (w, none)
  | f :: rest =>
    match downloadSingleFile branch tempDir f w with
    | (w1, some e) => (w1, some e)
    | (w1, none) => downloadList branch tempDir rest w1

/-- The templates.json entry that `downloadTemplates` line 142 builds for
the re-download of the manifest itself. -/
def manifestEntry (branch : String) : downloadFile :=
  { url := manifestURL branch, name := "templates.json" }

/-- All entries of a manifest, across the three lists, in download order. -/
def allEntries (td : templateDefinition) : List downloadFile :=
  td.dockerfiles ++ td.serviceYmls ++ td.dockerComposeYmls

/-- Function `downloadTemplates` from src/main.go lines 141-169: re-download
templates.json from the manifest URL, then the three entry lists in order,
aborting at the first error. -/
def downloadTemplates (branch tempDir : String) (td : templateDefinition) (w : World) :
    World × Option Err :=
  match downloadSingleFile branch tempDir (manifestEntry branch) w with
  | (w1, some e) => (w1, some e)
  | (w1, none) =>
    match downloadList branch tempDir td.dockerfiles w1 with
    | (w2, some e) => (w2, some e)
    | (w2, none) =>
      match downloadList branch tempDir td.serviceYmls w2 with
      | (w3, some e) => (w3, some e)
      | (w3, none) => downloadList branch tempDir td.dockerComposeYmls w3

/-- src/main.go lines 115-138 of `getTempaltes`: read and parse the local
templates.json, compare its version with the remote manifest's, and
re-download everything when they differ. -/
def getTempaltesCompare (branch tempDir : String) (tv : templateDefinition) (w : World) :
    World × Option Err :=
  match fsGet w.fs (pathJoin tempDir "templates.json") with
  | none => (w, some (Err.filesystem (pathJoin tempDir "templates.json")))
  | some body =>
    match parseTemplateDefinition body with
    | none => (w, some Err.parse)
    | some localTv =>
      if localTv.version ≠ tv.version then downloadTemplates branch tempDir tv w
      else (w, none)

/-- src/main.go lines 100-113 of `getTempaltes`: if no local templates.json
exists, create the directory (always succeeds in this model) and perform a
full download first; then fall through to the version comparison. -/
def getTempaltesLocal (branch tempDir : String) (tv : templateDefinition) (w : World) :
    World × Option Err :=
  match fsGet w.fs (pathJoin tempDir "templates.json") with
  | none =>
    match downloadTemplates branch tempDir tv w with
    | (w1, some e) => (w1, some e)
    | (w1, none) => getTempaltesCompare branch tempDir tv w1
  | some _ => getTempaltesCompare branch tempDir tv w

/-- Function `getTempaltes` from src/main.go lines 91-139: fetch and parse the remote
manifest, then reconcile the local cache directory against it. -/
def getTempaltes (branch tempDir : String) (w : World) : World × Option Err :=
  match doFetch w (manifestURL branch) with
  | (w1, none) => (w1, some (Err.network (manifestURL branch)))
  | (w1, some body) =>
    match parseTemplateDefinition body with
    | none => (w1, some Err.parse)
    | some tv => getTempaltesLocal branch tempDir tv w1

/-- Substring containment over character lists: `pat` occurs in `l` iff it
is a prefix of some suffix of `l`. -/
def containsSub (l pat : List Char) : Bool :=
  match l with
  | [] => pat.isPrefixOf []
  | _ :: rest => pat.isPrefixOf l || containsSub rest pat

/-- Model of `strings.Contains(s, pat)`: substring containment over the raw string. -/
def strContains (s pat : String) : Bool := containsSub s.data pat.data

/-- Go struct `analysisResult` from src/main.go lines 25-31. -/
structure analysisResult where
  warnings : List String
  ok : Bool
  language : String
  framework : String
  frameworkVersion : String
deriving DecidableEq

/-- Modelled from the spec: the detection collaborator (`Detect`,
`pack.Analyze`, `pack.WriteDockerfile`, `pack.WriteServiceYAML`,
`pack.WriteDockerComposeYAML`, `pack.GetMessages`, `pack.Name`,
`pack.Framework`, `pack.FrameworkVersion`) lives outside src/; following
spec section 6 it is modelled as a record giving the outcome of each
capability call (`none` = success, `some msg` = the collaborator's error
message) together with the messages it accumulates and its identification
strings. -/
structure Pack where
  analyzeErr : Option String
  writeDockerfileErr : Option String
  writeServiceYAMLErr : Option String
  writeDockerComposeErr : Option String
  messages : List String
  packName : String
  framework : String
  frameworkVersion : String
deriving DecidableEq

/-- The collaborator calls `analyze` issues, in order of invocation. -/
inductive RunEvent where
  | detectCalled
  | analyzeCalled
  | writeDockerfileCalled
  | writeServiceCalled
  | writeComposeCalled
deriving DecidableEq

/-- The errors `analyze` returns, one constructor per `return nil, ...`
site of src/main.go lines 294-377 that the embedding reaches. -/
inductive RunError where
  | templatesDownloadFailed (e : Err)
  | detectFailed
  | alreadyExists (file : String)
  | analyzeFailed (msg : String)
  | writeDockerfileFailed (msg : String)
  | writeServiceYAMLFailed (msg : String)
  | writeDockerComposeFailed (msg : String)
deriving DecidableEq

/-- The inputs of one `analyze` run: the flag arguments, the cache world the
sync acts on, the `Detect` outcome, and the `os.Stat` outcomes in the
project directory. `dockerComposeYmlExists` records whether the project
already holds a docker-compose.yml; the source never stats that file, so
the embedded `analyze` never reads this field. `environment` and
`noPrompt` are passed through to collaborator calls only, so the embedding
carries them without reading them. -/
structure AnalyzeInput where
  templates : String
  branch : String
  homeDir : String
  world : World
  detect : Option Pack
  dockerfileExists : Bool
  serviceYmlExists : Bool
  dockerComposeYmlExists : Bool
  environment : String
  noPrompt : Bool
  overwrite : Bool
  generator : String

/-- src/main.go lines 379-390: collect the collaborator's messages as
warnings and return the `ok` result carrying its identification strings. -/
def finishPhase (pack : Pack) (tr : List RunEvent) :
    List RunEvent × Except RunError analysisResult :=
  (tr, Except.ok
    { warnings := pack.messages
      ok := true
      language := pack.packName
      framework := pack.framework
      frameworkVersion := pack.frameworkVersion })

/-- src/main.go lines 372-377: write docker-compose.yml when the generator
string contains "docker-compose". -/
def composePhase (generator : String) (pack : Pack) (tr : List RunEvent) :
    List RunEvent × Except RunError analysisResult :=
  if strContains generator "docker-compose" then
    match pack.writeDockerComposeErr with
    | some m => (tr ++ [RunEvent.writeComposeCalled],
        Except.error (RunError.writeDockerComposeFailed m))
    | none => finishPhase pack (tr ++ [RunEvent.writeComposeCalled])
  else finishPhase pack tr

/-- src/main.go lines 365-370: write service.yml when the generator string
contains "service". -/
def servicePhase (generator : String) (pack : Pack) (tr : List RunEvent) :
    List RunEvent × Except RunError analysisResult :=
  if strContains generator "service" then
    match pack.writeServiceYAMLErr with
    | some m => (tr ++ [RunEvent.writeServiceCalled],
        Except.error (RunError.writeServiceYAMLFailed m))
    | none => composePhase generator pack (tr ++ [RunEvent.writeServiceCalled])
  else composePhase generator pack tr

/-- src/main.go lines 360-363: the unconditional Dockerfile write. -/
def writePhase (generator : String) (pack : Pack) (tr : List RunEvent) :
    List RunEvent × Except RunError analysisResult :=
  match pack.writeDockerfileErr with
  | some m => (tr ++ [RunEvent.writeDockerfileCalled],
      Except.error (RunError.writeDockerfileFailed m))
  | none => servicePhase generator pack (tr ++ [RunEvent.writeDockerfileCalled])

/-- src/main.go lines 355-358: the collaborator's analysis step. -/
def analyzePhase (generator : String) (pack : Pack) (tr : List RunEvent) :
    List RunEvent × Except RunError analysisResult :=
  match pack.analyzeErr with
  | some m => (tr ++ [RunEvent.analyzeCalled], Except.error (RunError.analyzeFailed m))
  | none => writePhase generator pack (tr ++ [RunEvent.analyzeCalled])

/-- src/main.go lines 304-329: the template-source resolution. When no
explicit templates directory is given the cache under homeDir/.starter is
synced (when `updateTemplates` is set); an explicit directory skips the
sync entirely. Returns the sync error, if any. -/
def analyzeSyncErr (updateTemplates : Bool) (inp : AnalyzeInput) : Option Err :=
  if inp.templates = "" then
    if updateTemplates then
      (getTempaltes inp.branch (pathJoin inp.homeDir ".starter") inp.world).2
    else none
  else none

/-- Function `analyze` from src/main.go lines 285-391: resolve the template source
(syncing the cache when needed), detect, run the overwrite guard on
Dockerfile and service.yml, analyze, write the Dockerfile and the
conditional artifacts, and collect warnings. Returns the ordered list of
collaborator calls made together with the result. -/
def analyze (updateTemplates : Bool) (inp : AnalyzeInput) :
    List RunEvent × Except RunError analysisResult :=
  match analyzeSyncErr updateTemplates inp with
  | some e => ([], Except.error (RunError.templatesDownloadFailed e))
  | none =>
    match inp.detect with
    | none => ([RunEvent.detectCalled], Except.error RunError.detectFailed)
    | some pack =>
      if inp.dockerfileExists && !inp.overwrite then
        ([RunEvent.detectCalled], Except.error (RunError.alreadyExists "Dockerfile"))
      else if inp.serviceYmlExists && !inp.overwrite then
        ([RunEvent.detectCalled], Except.error (RunError.alreadyExists "service.yml"))
      else analyzePhase inp.generator pack [RunEvent.detectCalled]

/-- Outcome of the configuration-resolution block of `main`
(src/main.go lines 208-223). -/
inductive ConfigOutcome where
  | exitFailure
  | useStored
  | useDefaults
deriving DecidableEq

/-- src/main.go lines 208-223. `ReadFromFile` (the stored-configuration
loader) lives outside src/, so only its success is modelled (`readOk`).
With `-daemon` and a non-empty `-c` path: a path that does not exist, or a
file that fails to load, prints an error and exits with code 1; otherwise
the stored configuration is used. In every other case the defaults are
used. -/
def resolveConfig (daemon : Bool) (configPath : String)
    (configPathExists readOk : Bool) : ConfigOutcome :=
  if daemon = true ∧ configPath ≠ "" then
    if configPathExists = false then ConfigOutcome.exitFailure
    else if readOk = false then ConfigOutcome.exitFailure
    else ConfigOutcome.useStored
  else ConfigOutcome.useDefaults

/-- Phase of the daemon-mode process after a successful API start
(src/main.go lines 228-250): blocked on the `cleanupDone` channel, or
exited with a code. -/
inductive DaemonPhase where
  | listening
  | exited (code : Nat)
deriving DecidableEq

def DaemonPhase.isListening : DaemonPhase → Bool
  | DaemonPhase.listening => true
  | DaemonPhase.exited _ => false

/-- State of the daemon-mode handshake of src/main.go lines 228-250:
whether an interrupt has been delivered on `signalChan` and not yet
consumed by the signal goroutine, whether a value sent on `cleanupDone`
is pending, and the phase of the main goroutine. -/
structure DaemonState where
  pendingSignal : Bool
  cleanupMsg : Bool
  phase : DaemonPhase
deriving DecidableEq

/-- The enabled transitions of the shutdown handshake, as a function from a
state to the list of possible successor states. The first alternative is
the signal goroutine (lines 241-246): consume a pending interrupt and send
on `cleanupDone`. The second is the main goroutine (lines 248-249):
receive from `cleanupDone` and call `os.Exit(0)`. -/
def daemonSteps (s : DaemonState) : List DaemonState :=
  (if s.pendingSignal && !s.cleanupMsg then
      [{ pendingSignal := false, cleanupMsg := true, phase := s.phase }]
    else []) ++
  (if s.cleanupMsg && s.phase.isListening then
      [{ pendingSignal := s.pendingSignal, cleanupMsg := false,
         phase := DaemonPhase.exited 0 }]
    else [])


/-! ## Concrete worlds and inputs used by the witnesses -/

/-- A cache world whose local templates.json already matches the remote
version "5"; the remote never changes. -/
def c2World : World :=
  { fs := [(pathJoin "cache" "templates.json",
            Content.manifest { version := "5", dockerfiles := [],
                               serviceYmls := [], dockerComposeYmls := [] })]
    remote := fun _ _ => some (Content.manifest
      { version := "5", dockerfiles := [], serviceYmls := [], dockerComposeYmls := [] })
    fetchCount := 0
    writeFails := fun _ => false
    log := [] }

/-- A remote manifest with one Dockerfile entry, version "2". -/
def c4Manifest : templateDefinition :=
  { version := "2"
    dockerfiles := [{ url := "https://x/Dockerfile.tmpl", name := "Dockerfile.tmpl" }]
    serviceYmls := []
    dockerComposeYmls := [] }

/-- The stale local manifest, version "1". -/
def c4LocalTd : templateDefinition :=
  { version := "1", dockerfiles := [], serviceYmls := [], dockerComposeYmls := [] }

/-- A cache world holding the stale version "1" against a constant remote
serving `c4Manifest`. -/
def c4World : World :=
  { fs := [(pathJoin "cache" "templates.json", Content.manifest c4LocalTd)]
    remote := fun _ _ => some (Content.manifest c4Manifest)
    fetchCount := 0
    writeFails := fun _ => false
    log := [] }

/-- Remote manifest body served at the first fetch of a sync (version "2"). -/
def c5TdA : templateDefinition :=
  { version := "2", dockerfiles := [], serviceYmls := [], dockerComposeYmls := [] }

/-- Remote manifest body served at every later fetch (version "3"): the
remote changed between the version comparison and the re-download. -/
def c5TdB : templateDefinition :=
  { version := "3", dockerfiles := [], serviceYmls := [], dockerComposeYmls := [] }

/-- A remote that changes between the first fetch and all later ones. -/
def c5Remote : Nat → String → Option Content := fun n _ =>
  if n = 0 then some (Content.manifest c5TdA) else some (Content.manifest c5TdB)

/-- A cache world with a stale local manifest (version "1") against the
changing remote `c5Remote`. -/
def c5World : World :=
  { fs := [(pathJoin "cache" "templates.json", Content.manifest
      { version := "1", dockerfiles := [], serviceYmls := [], dockerComposeYmls := [] })]
    remote := c5Remote
    fetchCount := 0
    writeFails := fun _ => false
    log := [] }

/-- A manifest with two Dockerfile entries; the second one's write fails in
`c6World`. -/
def c6Td : templateDefinition :=
  { version := "2"
    dockerfiles := [{ url := "https://x/a", name := "a.tmpl" },
                    { url := "https://x/b", name := "b.tmpl" }]
    serviceYmls := []
    dockerComposeYmls := [] }

/-- An empty cache world in which writing cache/b.tmpl fails. -/
def c6World : World :=
  { fs := []
    remote := fun _ _ => some (Content.raw "data")
    fetchCount := 0
    writeFails := fun p => decide (p = pathJoin "cache" "b.tmpl")
    log := [] }

/-- A world no witness run ever syncs against. -/
def emptyWorld : World :=
  { fs := [], remote := fun _ _ => none, fetchCount := 0,
    writeFails := fun _ => false, log := [] }

/-- A detection collaborator for which every capability call succeeds. -/
def okPack : Pack :=
  { analyzeErr := none
    writeDockerfileErr := none
    writeServiceYAMLErr := none
    writeDockerComposeErr := none
    messages := ["could not find a database"]
    packName := "ruby"
    framework := "rails"
    frameworkVersion := "5.0" }

/-- A baseline `analyze` input: explicit templates directory (so the sync
is skipped), successful detection, empty project directory. -/
def baseInput : AnalyzeInput :=
  { templates := "/usr/local/templates"
    branch := "master"
    homeDir := "/home/u"
    world := emptyWorld
    detect := some okPack
    dockerfileExists := false
    serviceYmlExists := false
    dockerComposeYmlExists := false
    environment := "production"
    noPrompt := true
    overwrite := false
    generator := "dockerfile" }

def c1InputA : AnalyzeInput := { baseInput with dockerfileExists := true }

def c1InputB : AnalyzeInput := { baseInput with serviceYmlExists := true }

def c1InputC : AnalyzeInput :=
  { baseInput with dockerfileExists := true, serviceYmlExists := true, overwrite := true }

def c3InputB : AnalyzeInput := { baseInput with generator := "dockerfile,service" }

def c7Input : AnalyzeInput :=
  { baseInput with generator := "dockerfile,service,docker-compose" }

def c10Input : AnalyzeInput :=
  { baseInput with dockerComposeYmlExists := true, generator := "docker-compose" }

/-! ## Helper lemmas: the template cache -/

theorem downloadList_nil (b d : String) (w : World) :
    downloadList b d [] w = (w, none) := rfl

theorem downloadList_cons (b d : String) (f : downloadFile) (rest : List downloadFile)
    (w : World) :
    downloadList b d (f :: rest) w =
      match downloadSingleFile b d f w with
      | (w1, some e) => (w1, some e)
      | (w1, none) => downloadList b d rest w1 := rfl

/-- A successful `downloadSingleFile` fetched some body for the entry's URL
and produced exactly `dsfOkWorld`. -/
theorem downloadSingleFile_ok (b d : String) (f : downloadFile) (w : World)
    (h : (downloadSingleFile b d f w).2 = none) :
    ∃ body, w.remote w.fetchCount (substBranch b f.url) = some body ∧
      downloadSingleFile b d f w = (dsfOkWorld b d f body w, none) := by
  unfold downloadSingleFile doFetch doWrite at h ⊢
  cases hr : w.remote w.fetchCount (substBranch b f.url) with
  | none => rw [hr] at h; simp at h
  | some body =>
    rw [hr] at h
    by_cases hw : w.writeFails (pathJoin d f.name)
    · simp [hw] at h
    · refine ⟨body, rfl, ?_⟩
      simp [hw, dsfOkWorld]

/-- Lemma: `downloadSingleFile` only ever appends to the log. -/
theorem downloadSingleFile_log (b d : String) (f : downloadFile) (w : World) :
    ∃ t, (downloadSingleFile b d f w).1.log = w.log ++ t := by
  unfold downloadSingleFile doFetch doWrite
  cases hr : w.remote w.fetchCount (substBranch b f.url) with
  | none => exact ⟨[Event.fetched (substBranch b f.url)], rfl⟩
  | some body =>
    by_cases hw : w.writeFails (pathJoin d f.name)
    · exact ⟨[Event.fetched (substBranch b f.url)], by simp [hw]⟩
    · exact ⟨[Event.fetched (substBranch b f.url), Event.wrote (pathJoin d f.name) body],
        by simp [hw]⟩

/-- Lemma: `downloadSingleFile` leaves the filesystem unchanged or pushes one file. -/
theorem downloadSingleFile_fs (b d : String) (f : downloadFile) (w : World) :
    (downloadSingleFile b d f w).1.fs = w.fs ∨
      ∃ body, (downloadSingleFile b d f w).1.fs = (pathJoin d f.name, body) :: w.fs := by
  unfold downloadSingleFile doFetch doWrite
  cases hr : w.remote w.fetchCount (substBranch b f.url) with
  | none => exact Or.inl rfl
  | some body =>
    by_cases hw : w.writeFails (pathJoin d f.name)
    · exact Or.inl (by simp [hw])
    · exact Or.inr ⟨body, by simp [hw]⟩

/-- A present file stays present across `downloadSingleFile`. -/
theorem downloadSingleFile_fs_mono (b d : String) (f : downloadFile) (w : World)
    (p : String) (h : (fsGet w.fs p).isSome = true) :
    (fsGet (downloadSingleFile b d f w).1.fs p).isSome = true := by
  rcases downloadSingleFile_fs b d f w with hfs | ⟨body, hfs⟩
  · rw [hfs]; exact h
  · rw [hfs]
    unfold fsGet
    by_cases hp : pathJoin d f.name = p <;> simp [hp, h]

/-- Lemma: `downloadList` only ever appends to the log. -/
theorem downloadList_log (b d : String) (l : List downloadFile) (w : World) :
    ∃ t, (downloadList b d l w).1.log = w.log ++ t := by
  induction l generalizing w with
  | nil => exact ⟨[], by simp [downloadList_nil]⟩
  | cons f rest ih =>
    rw [downloadList_cons]
    rcases downloadSingleFile_log b d f w with ⟨t1, ht1⟩
    cases hf : downloadSingleFile b d f w with
    | mk w1 r =>
      rw [hf] at ht1
      have ht1w : w1.log = w.log ++ t1 := ht1
      cases r with
      | some e => exact ⟨t1, ht1w⟩
      | none =>
        dsimp only
        rcases ih w1 with ⟨t2, ht2⟩
        exact ⟨t1 ++ t2, by rw [ht2, ht1w, List.append_assoc]⟩

/-- A present file stays present across `downloadList`. -/
theorem downloadList_fs_mono (b d : String) (l : List downloadFile) (w : World)
    (p : String) (h : (fsGet w.fs p).isSome = true) :
    (fsGet (downloadList b d l w).1.fs p).isSome = true := by
  induction l generalizing w with
  | nil => simpa [downloadList_nil] using h
  | cons f rest ih =>
    rw [downloadList_cons]
    have h1 := downloadSingleFile_fs_mono b d f w p h
    cases hf : downloadSingleFile b d f w with
    | mk w1 r =>
      rw [hf] at h1
      cases r with
      | some e => exact h1
      | none => exact ih w1 h1

/-- A successful `downloadList` logs a write for every entry of the list. -/
theorem downloadList_ok_writes (b d : String) (l : List downloadFile) (w : World)
    (h : (downloadList b d l w).2 = none) :
    ∃ t, (downloadList b d l w).1.log = w.log ++ t ∧
      ∀ e ∈ l, ∃ c, Event.wrote (pathJoin d e.name) c ∈ t := by
  induction l generalizing w with
  | nil => exact ⟨[], by simp [downloadList_nil], by simp⟩
  | cons f rest ih =>
    rw [downloadList_cons] at h ⊢
    cases hf : downloadSingleFile b d f w with
    | mk w1 r =>
      rw [hf] at h
      cases r with
      | some e => simp at h
      | none =>
        dsimp only at h ⊢
        have hok : (downloadSingleFile b d f w).2 = none := by rw [hf]
        rcases downloadSingleFile_ok b d f w hok with ⟨body, _, heq⟩
        rw [hf] at heq
        have hw1 : w1 = dsfOkWorld b d f body w := congrArg Prod.fst heq
        rcases ih w1 h with ⟨t2, hlog2, hmem2⟩
        refine ⟨[Event.fetched (substBranch b f.url),
                 Event.wrote (pathJoin d f.name) body] ++ t2, ?_, ?_⟩
        · rw [hlog2, hw1]
          simp [dsfOkWorld]
        · intro e he
          rcases List.mem_cons.mp he with he | he
          · subst he; exact ⟨body, by simp⟩
          · rcases hmem2 e he with ⟨c, hc⟩
            exact ⟨c, by simp [hc]⟩

/-- After a successful `downloadList`, every entry's file is present. -/
theorem downloadList_ok_files (b d : String) (l : List downloadFile) (w : World)
    (h : (downloadList b d l w).2 = none) :
    ∀ e ∈ l, (fsGet (downloadList b d l w).1.fs (pathJoin d e.name)).isSome = true := by
  induction l generalizing w with
  | nil => simp
  | cons f rest ih =>
    rw [downloadList_cons] at h ⊢
    cases hf : downloadSingleFile b d f w with
    | mk w1 r =>
      rw [hf] at h
      cases r with
      | some e => simp at h
      | none =>
        dsimp only at h ⊢
        have hok : (downloadSingleFile b d f w).2 = none := by rw [hf]
        rcases downloadSingleFile_ok b d f w hok with ⟨body, _, heq⟩
        rw [hf] at heq
        have hw1 : w1 = dsfOkWorld b d f body w := congrArg Prod.fst heq
        intro e he
        rcases List.mem_cons.mp he with he | he
        · rw [he]
          refine downloadList_fs_mono b d rest w1 (pathJoin d f.name) ?_
          rw [hw1]
          simp [dsfOkWorld, fsGet]
        · exact ih w1 h e he

/-- Splitting: a `downloadList` over `l1 ++ l2` that clears `l1` continues with `l2`
from the world `l1` produced. -/
theorem downloadList_append_ok (b d : String) (l1 l2 : List downloadFile) (w w1 : World)
    (h : downloadList b d l1 w = (w1, none)) :
    downloadList b d (l1 ++ l2) w = downloadList b d l2 w1 := by
  induction l1 generalizing w with
  | nil =>
    rw [downloadList_nil] at h
    cases h
    rfl
  | cons f rest ih =>
    rw [downloadList_cons] at h
    rw [List.cons_append, downloadList_cons]
    cases hf : downloadSingleFile b d f w with
    | mk wa r =>
      rw [hf] at h
      cases r with
      | some e => dsimp only at h; exact absurd (congrArg Prod.snd h) (by simp)
      | none => exact ih wa h

/-- Splitting: a `downloadList` over `l1 ++ l2` that fails inside `l1` stops there. -/
theorem downloadList_append_err (b d : String) (l1 l2 : List downloadFile) (w w1 : World)
    (err : Err) (h : downloadList b d l1 w = (w1, some err)) :
    downloadList b d (l1 ++ l2) w = (w1, some err) := by
  induction l1 generalizing w with
  | nil =>
    rw [downloadList_nil] at h
    exact absurd (congrArg Prod.snd h) (by simp)
  | cons f rest ih =>
    rw [downloadList_cons] at h
    rw [List.cons_append, downloadList_cons]
    cases hf : downloadSingleFile b d f w with
    | mk wa r =>
      rw [hf] at h
      cases r with
      | some e => exact h
      | none => exact ih wa h

/-- Decomposition: `downloadTemplates` is `downloadList` over the manifest entry followed
by all entries of the three lists. -/
theorem downloadTemplates_eq (b d : String) (td : templateDefinition) (w : World) :
    downloadTemplates b d td w =
      downloadList b d (manifestEntry b :: allEntries td) w := by
  rw [downloadList_cons]
  unfold downloadTemplates allEntries
  cases hf : downloadSingleFile b d (manifestEntry b) w with
  | mk w1 r =>
    cases r with
    | some e => rfl
    | none =>
      dsimp only
      cases h1 : downloadList b d td.dockerfiles w1 with
      | mk w2 r2 =>
        cases r2 with
        | some e =>
          have h12 : downloadList b d (td.dockerfiles ++ td.serviceYmls) w1 =
              (w2, some e) :=
            downloadList_append_err b d td.dockerfiles td.serviceYmls w1 w2 e h1
          rw [downloadList_append_err b d (td.dockerfiles ++ td.serviceYmls)
            td.dockerComposeYmls w1 w2 e h12]
        | none =>
          have h12 : downloadList b d (td.dockerfiles ++ td.serviceYmls) w1 =
              downloadList b d td.serviceYmls w2 :=
            downloadList_append_ok b d td.dockerfiles td.serviceYmls w1 w2 h1
          cases h2 : downloadList b d td.serviceYmls w2 with
          | mk w3 r3 =>
            cases r3 with
            | some e =>
              have h13 : downloadList b d (td.dockerfiles ++ td.serviceYmls) w1 =
                  (w3, some e) := by rw [h12, h2]
              rw [downloadList_append_err b d (td.dockerfiles ++ td.serviceYmls)
                td.dockerComposeYmls w1 w3 e h13]
              dsimp only
              rw [h2]
            | none =>
              have h13 : downloadList b d (td.dockerfiles ++ td.serviceYmls) w1 =
                  (w3, none) := by rw [h12, h2]
              rw [downloadList_append_ok b d (td.dockerfiles ++ td.serviceYmls)
                td.dockerComposeYmls w1 w3 h13]
              dsimp only
              rw [h2]

/-- A failing `downloadList` splits the list at the failing entry: every
earlier entry succeeded, the failing entry produced the final world and the
returned error, and nothing after the failing entry ran. -/
theorem downloadList_error_split (b d : String) (l : List downloadFile) (w : World)
    (err : Err) (h : (downloadList b d l w).2 = some err) :
    ∃ l1 f l2 w1, l = l1 ++ f :: l2 ∧
      downloadList b d l1 w = (w1, none) ∧
      downloadSingleFile b d f w1 = ((downloadList b d l w).1, some err) := by
  induction l generalizing w with
  | nil => simp [downloadList_nil] at h
  | cons f rest ih =>
    rw [downloadList_cons] at h ⊢
    cases hf : downloadSingleFile b d f w with
    | mk w1 r =>
      rw [hf] at h
      cases r with
      | some e =>
        dsimp only at h ⊢
        cases h
        exact ⟨[], f, rest, w, rfl, rfl, by rw [hf]⟩
      | none =>
        dsimp only at h ⊢
        rcases ih w1 h with ⟨l1, f2, l2, w2, hsplit, hok, hfail⟩
        refine ⟨f :: l1, f2, l2, w2, by rw [hsplit, List.cons_append], ?_, hfail⟩
        rw [downloadList_cons, hf]
        dsimp only
        exact hok

/-! ## Reductions of getTempaltes -/

/-- Reduction of `getTempaltes` when the local manifest exists and its
version differs from the remote one: the sync is the manifest fetch
followed by a full download. -/
theorem getTempaltes_mismatch (b d : String) (w : World) (body lc : Content)
    (tv localTv : templateDefinition)
    (hfetch : w.remote w.fetchCount (manifestURL b) = some body)
    (hparse : parseTemplateDefinition body = some tv)
    (hlocal : fsGet w.fs (pathJoin d "templates.json") = some lc)
    (hlparse : parseTemplateDefinition lc = some localTv)
    (hne : localTv.version ≠ tv.version) :
    getTempaltes b d w = downloadTemplates b d tv
      { w with fetchCount := w.fetchCount + 1,
               log := w.log ++ [Event.fetched (manifestURL b)] } := by
  simp only [getTempaltes, doFetch, getTempaltesLocal, getTempaltesCompare,
    hfetch, hparse, hlocal, hlparse, if_pos hne]

/-! ## Claim theorems: the template cache -/

/-- C2: sync is idempotent when versions match. When the cached
templates.json parses to the same version as the remote manifest,
`getTempaltes` returns successfully with the filesystem unchanged and the
log grown by exactly the one manifest fetch: zero entry downloads and zero
file writes beyond the manifest fetch and the local read. -/
theorem getTempaltes_up_to_date (b d : String) (w : World) (body lc : Content)
    (tv localTv : templateDefinition)
    (hfetch : w.remote w.fetchCount (manifestURL b) = some body)
    (hparse : parseTemplateDefinition body = some tv)
    (hlocal : fsGet w.fs (pathJoin d "templates.json") = some lc)
    (hlparse : parseTemplateDefinition lc = some localTv)
    (hv : localTv.version = tv.version) :
    getTempaltes b d w =
      ({ w with fetchCount := w.fetchCount + 1,
                log := w.log ++ [Event.fetched (manifestURL b)] }, none) := by
  simp only [getTempaltes, doFetch, getTempaltesLocal, getTempaltesCompare,
    hfetch, hparse, hlocal, hlparse, hv]
  simp

/-- Witness for C2 at a concrete up-to-date cache world. -/
theorem getTempaltes_up_to_date_witness :
    getTempaltes "master" "cache" c2World =
      ({ c2World with fetchCount := c2World.fetchCount + 1,
                      log := c2World.log ++ [Event.fetched (manifestURL "master")] },
       none) :=
  getTempaltes_up_to_date "master" "cache" c2World
    (Content.manifest { version := "5", dockerfiles := [],
                        serviceYmls := [], dockerComposeYmls := [] })
    (Content.manifest { version := "5", dockerfiles := [],
                        serviceYmls := [], dockerComposeYmls := [] })
    { version := "5", dockerfiles := [], serviceYmls := [], dockerComposeYmls := [] }
    { version := "5", dockerfiles := [], serviceYmls := [], dockerComposeYmls := [] }
    rfl rfl (by decide) rfl rfl

/-- C4: version-driven invalidation. When the cached version differs from
the remote manifest's version and the sync succeeds, the sync's own log
segment records a write of templates.json and a write of every entry across
the three lists of the remote manifest, and every entry file is present in
the final filesystem. -/
theorem getTempaltes_version_mismatch (b d : String) (w : World) (body lc : Content)
    (tv localTv : templateDefinition)
    (hfetch : w.remote w.fetchCount (manifestURL b) = some body)
    (hparse : parseTemplateDefinition body = some tv)
    (hlocal : fsGet w.fs (pathJoin d "templates.json") = some lc)
    (hlparse : parseTemplateDefinition lc = some localTv)
    (hne : localTv.version ≠ tv.version)
    (hsucc : (getTempaltes b d w).2 = none) :
    ∃ t, (getTempaltes b d w).1.log = w.log ++ t ∧
      (∃ c, Event.wrote (pathJoin d "templates.json") c ∈ t) ∧
      ∀ e ∈ allEntries tv,
        (∃ c, Event.wrote (pathJoin d e.name) c ∈ t) ∧
        (fsGet (getTempaltes b d w).1.fs (pathJoin d e.name)).isSome = true := by
  have hred := getTempaltes_mismatch b d w body lc tv localTv
    hfetch hparse hlocal hlparse hne
  rw [hred, downloadTemplates_eq] at hsucc ⊢
  rcases downloadList_ok_writes b d (manifestEntry b :: allEntries tv) _ hsucc with
    ⟨t2, hlog, hmem⟩
  refine ⟨Event.fetched (manifestURL b) :: t2, ?_, ?_, ?_⟩
  · rw [hlog]; simp
  · rcases hmem (manifestEntry b) (List.mem_cons_self _ _) with ⟨c, hc⟩
    exact ⟨c, List.mem_cons_of_mem _ hc⟩
  · intro e he
    refine ⟨?_, ?_⟩
    · rcases hmem e (List.mem_cons_of_mem _ he) with ⟨c, hc⟩
      exact ⟨c, List.mem_cons_of_mem _ hc⟩
    · exact downloadList_ok_files b d _ _ hsucc e (List.mem_cons_of_mem _ he)

/-- Witness for C4 at a concrete stale cache world. -/
theorem getTempaltes_version_mismatch_witness :
    ∃ t, (getTempaltes "master" "cache" c4World).1.log = c4World.log ++ t ∧
      (∃ c, Event.wrote (pathJoin "cache" "templates.json") c ∈ t) ∧
      ∀ e ∈ allEntries c4Manifest,
        (∃ c, Event.wrote (pathJoin "cache" e.name) c ∈ t) ∧
        (fsGet (getTempaltes "master" "cache" c4World).1.fs
          (pathJoin "cache" e.name)).isSome = true :=
  getTempaltes_version_mismatch "master" "cache" c4World
    (Content.manifest c4Manifest) (Content.manifest c4LocalTd) c4Manifest c4LocalTd
    rfl rfl (by decide) rfl (by decide) (by decide)

/-- C5, counterexample: the sync on `c5World` version-compares the manifest
body served at the first fetch (`c5TdA`, version "2"), succeeds, and yet
the content it leaves in cache/templates.json is the body of a second fetch
(`c5TdB`, version "3"), not the manifest that was fetched and
version-compared at the start. -/
theorem downloadTemplates_refetches_manifest_cex :
    c5World.remote 0 (manifestURL "master") = some (Content.manifest c5TdA) ∧
    (getTempaltes "master" "cache" c5World).2 = none ∧
    fsGet (getTempaltes "master" "cache" c5World).1.fs
      (pathJoin "cache" "templates.json") = some (Content.manifest c5TdB) ∧
    Content.manifest c5TdB ≠ Content.manifest c5TdA := by
  exact ⟨rfl, by decide, by decide, by decide⟩

/-- C5 (amended): during a full download, the content written to
cacheDir/templates.json is the body returned by a fresh fetch of the
manifest URL performed at download time (a second fetch of the same URL,
which coincides with the manifest compared at the start only when the
remote is unchanged in between); after that, every entry across the three
lists is fetched from its URL and written to cacheDir/<entry.name>. -/
theorem downloadTemplates_fresh_manifest (b d : String) (td : templateDefinition)
    (w : World) (body : Content)
    (hfetch : w.remote w.fetchCount (substBranch b (manifestURL b)) = some body)
    (hwrite : w.writeFails (pathJoin d "templates.json") = false) :
    downloadTemplates b d td w =
      downloadList b d (allEntries td) (dsfOkWorld b d (manifestEntry b) body w) ∧
    ((downloadTemplates b d td w).2 = none →
      ∃ t, (downloadTemplates b d td w).1.log = w.log ++ t ∧
        ∀ e ∈ allEntries td, ∃ c, Event.wrote (pathJoin d e.name) c ∈ t) := by
  have hdsf : downloadSingleFile b d (manifestEntry b) w =
      (dsfOkWorld b d (manifestEntry b) body w, none) := by
    unfold downloadSingleFile doFetch doWrite
    dsimp only [manifestEntry]
    rw [hfetch]
    simp [hwrite, dsfOkWorld, manifestEntry]
  have hmain : downloadTemplates b d td w =
      downloadList b d (allEntries td) (dsfOkWorld b d (manifestEntry b) body w) := by
    rw [downloadTemplates_eq, downloadList_cons, hdsf]
  refine ⟨hmain, ?_⟩
  intro hsucc
  rw [hmain] at hsucc ⊢
  rcases downloadList_ok_writes b d (allEntries td) _ hsucc with ⟨t2, hlog, hmem⟩
  refine ⟨[Event.fetched (substBranch b (manifestURL b)),
           Event.wrote (pathJoin d "templates.json") body] ++ t2, ?_, ?_⟩
  · rw [hlog]; simp [dsfOkWorld, manifestEntry]
  · intro e he
    rcases hmem e he with ⟨c, hc⟩
    exact ⟨c, by simp [hc]⟩

/-- Witness for the amended C5 at the changing-remote world. -/
theorem downloadTemplates_fresh_manifest_witness :
    (downloadTemplates "master" "cache" c5TdA c5World =
      downloadList "master" "cache" (allEntries c5TdA)
        (dsfOkWorld "master" "cache" (manifestEntry "master")
          (Content.manifest c5TdA) c5World)) ∧
    ((downloadTemplates "master" "cache" c5TdA c5World).2 = none →
      ∃ t, (downloadTemplates "master" "cache" c5TdA c5World).1.log =
          c5World.log ++ t ∧
        ∀ e ∈ allEntries c5TdA, ∃ c,
          Event.wrote (pathJoin "cache" e.name) c ∈ t) :=
  downloadTemplates_fresh_manifest "master" "cache" c5TdA c5World
    (Content.manifest c5TdA) (by decide) rfl

/-- C6: failure semantics of a full download. A failing `downloadTemplates`
splits its entry sequence (manifest entry, then the three lists) at a
failing entry: every earlier entry succeeded, the failing entry alone
produced the final world and the returned error (so no later entry is
fetched or written), and every file written before the failure is still
present in the final filesystem. -/
theorem downloadTemplates_abort_on_failure (b d : String) (td : templateDefinition)
    (w : World) (err : Err)
    (h : (downloadTemplates b d td w).2 = some err) :
    ∃ l1 f l2 w1, manifestEntry b :: allEntries td = l1 ++ f :: l2 ∧
      downloadList b d l1 w = (w1, none) ∧
      downloadSingleFile b d f w1 = ((downloadTemplates b d td w).1, some err) ∧
      ∀ e ∈ l1, (fsGet (downloadTemplates b d td w).1.fs
        (pathJoin d e.name)).isSome = true := by
  rw [downloadTemplates_eq] at h ⊢
  rcases downloadList_error_split b d _ w err h with ⟨l1, f, l2, w1, hsplit, hok, hfail⟩
  refine ⟨l1, f, l2, w1, hsplit, hok, hfail, ?_⟩
  intro e he
  have h1 : (fsGet w1.fs (pathJoin d e.name)).isSome = true := by
    have h2 := downloadList_ok_files b d l1 w (by rw [hok]) e he
    rw [hok] at h2
    exact h2
  have h3 := downloadSingleFile_fs_mono b d f w1 (pathJoin d e.name) h1
  rw [hfail] at h3
  exact h3

/-- Witness for C6 at a concrete world whose second entry write fails. -/
theorem downloadTemplates_abort_on_failure_witness :
    ∃ l1 f l2 w1,
      manifestEntry "master" :: allEntries c6Td = l1 ++ f :: l2 ∧
      downloadList "master" "cache" l1 c6World = (w1, none) ∧
      downloadSingleFile "master" "cache" f w1 =
        ((downloadTemplates "master" "cache" c6Td c6World).1,
         some (Err.filesystem (pathJoin "cache" "b.tmpl"))) ∧
      ∀ e ∈ l1, (fsGet (downloadTemplates "master" "cache" c6Td c6World).1.fs
        (pathJoin "cache" e.name)).isSome = true :=
  downloadTemplates_abort_on_failure "master" "cache" c6Td c6World
    (Err.filesystem (pathJoin "cache" "b.tmpl")) (by decide)

/-! ## Helper lemmas: the generation pipeline -/

/-- Events already in the trace accumulator survive `composePhase`. -/
theorem composePhase_mem (g : String) (p : Pack) (tr : List RunEvent) (e : RunEvent)
    (h : e ∈ tr) : e ∈ (composePhase g p tr).1 := by
  unfold composePhase finishPhase
  cases hg : strContains g "docker-compose" <;>
    cases hw : p.writeDockerComposeErr <;> simp [hg, hw, h]

/-- Events already in the trace accumulator survive `servicePhase`. -/
theorem servicePhase_mem (g : String) (p : Pack) (tr : List RunEvent) (e : RunEvent)
    (h : e ∈ tr) : e ∈ (servicePhase g p tr).1 := by
  unfold servicePhase
  cases hg : strContains g "service" with
  | false =>
    simp only [hg, Bool.false_eq_true, if_neg]
    exact composePhase_mem g p tr e h
  | true =>
    simp only [hg, if_pos]
    cases hw : p.writeServiceYAMLErr with
    | some m => simp [h]
    | none => exact composePhase_mem g p _ e (List.mem_append_left _ h)

/-- Events already in the trace accumulator survive `writePhase`. -/
theorem writePhase_mem (g : String) (p : Pack) (tr : List RunEvent) (e : RunEvent)
    (h : e ∈ tr) : e ∈ (writePhase g p tr).1 := by
  unfold writePhase
  cases hw : p.writeDockerfileErr with
  | some m => simp [h]
  | none => exact servicePhase_mem g p _ e (List.mem_append_left _ h)

/-- `analyzePhase` always records the collaborator analysis call. -/
theorem analyzePhase_analyzeCalled (g : String) (p : Pack) (tr : List RunEvent) :
    RunEvent.analyzeCalled ∈ (analyzePhase g p tr).1 := by
  unfold analyzePhase
  cases ha : p.analyzeErr with
  | some m => simp
  | none => exact writePhase_mem g p _ RunEvent.analyzeCalled (by simp)

/-- On an all-success collaborator, `analyzePhase` runs analysis, the
Dockerfile write, and the generator-selected writes, in order, and returns
the `ok` result carrying the collaborator's messages as warnings. -/
theorem analyzePhase_ok (g : String) (p : Pack) (tr : List RunEvent)
    (ha : p.analyzeErr = none) (hw : p.writeDockerfileErr = none)
    (hws : p.writeServiceYAMLErr = none) (hwc : p.writeDockerComposeErr = none) :
    analyzePhase g p tr =
      (tr ++ [RunEvent.analyzeCalled, RunEvent.writeDockerfileCalled]
          ++ (if strContains g "service" then [RunEvent.writeServiceCalled] else [])
          ++ (if strContains g "docker-compose" then [RunEvent.writeComposeCalled] else []),
       Except.ok { warnings := p.messages, ok := true, language := p.packName,
                   framework := p.framework,
                   frameworkVersion := p.frameworkVersion }) := by
  unfold analyzePhase writePhase servicePhase composePhase finishPhase
  rw [ha, hw, hws, hwc]
  cases hs : strContains g "service" <;> cases hc : strContains g "docker-compose" <;>
    simp [hs, hc]

/-- When the sync succeeds, detection succeeds and the overwrite guard
passes, `analyze` is `analyzePhase` after the detect call. -/
theorem analyze_ok_path (inp : AnalyzeInput) (pack : Pack)
    (hsync : analyzeSyncErr true inp = none)
    (hdet : inp.detect = some pack)
    (hguard : inp.overwrite = true ∨
      (inp.dockerfileExists = false ∧ inp.serviceYmlExists = false)) :
    analyze true inp = analyzePhase inp.generator pack [RunEvent.detectCalled] := by
  unfold analyze
  rw [hsync, hdet]
  rcases hguard with hov | ⟨hd, hs⟩
  · simp [hov]
  · simp [hd, hs]

/-! ## Claim theorems: the generation pipeline -/

/-- C1: the overwrite guard. With a successful sync and detection, if
`overwrite` is false and `Dockerfile` (resp. `service.yml`) exists in the
project, `analyze` fails with the already-exists error naming that file and
its trace is exactly the detect call: the collaborator's analysis step is
never invoked and no artifact write is issued. With `overwrite` true the
run proceeds past the guard into the analysis step. -/
theorem analyze_overwrite_guard (inp : AnalyzeInput) (pack : Pack)
    (hsync : analyzeSyncErr true inp = none)
    (hdet : inp.detect = some pack) :
    (inp.overwrite = false → inp.dockerfileExists = true →
      analyze true inp =
        ([RunEvent.detectCalled],
         Except.error (RunError.alreadyExists "Dockerfile"))) ∧
    (inp.overwrite = false → inp.serviceYmlExists = true →
      inp.dockerfileExists = false →
      analyze true inp =
        ([RunEvent.detectCalled],
         Except.error (RunError.alreadyExists "service.yml"))) ∧
    (inp.overwrite = true → RunEvent.analyzeCalled ∈ (analyze true inp).1) := by
  refine ⟨?_, ?_, ?_⟩
  · intro hov hd
    unfold analyze
    rw [hsync, hdet]
    simp [hov, hd]
  · intro hov hs hd
    unfold analyze
    rw [hsync, hdet]
    simp [hov, hs, hd]
  · intro hov
    rw [analyze_ok_path inp pack hsync hdet (Or.inl hov)]
    exact analyzePhase_analyzeCalled inp.generator pack [RunEvent.detectCalled]

/-- Witness for C1: guard failure on an existing Dockerfile, guard failure
on an existing service.yml, and guard passage with overwrite set. -/
theorem analyze_overwrite_guard_witness :
    (analyze true c1InputA =
      ([RunEvent.detectCalled], Except.error (RunError.alreadyExists "Dockerfile"))) ∧
    (analyze true c1InputB =
      ([RunEvent.detectCalled], Except.error (RunError.alreadyExists "service.yml"))) ∧
    RunEvent.analyzeCalled ∈ (analyze true c1InputC).1 :=
  ⟨(analyze_overwrite_guard c1InputA okPack rfl rfl).1 rfl rfl,
   (analyze_overwrite_guard c1InputB okPack rfl rfl).2.1 rfl rfl rfl,
   (analyze_overwrite_guard c1InputC okPack rfl rfl).2.2 rfl⟩

/-- C3: generator selection. On an all-success run, the trace of
collaborator calls is detect, analyze, the unconditional Dockerfile write,
then the service write exactly when the raw generator string contains
"service" as a substring, then the compose write exactly when it contains
"docker-compose". -/
theorem analyze_generator_selection (inp : AnalyzeInput) (pack : Pack)
    (hsync : analyzeSyncErr true inp = none)
    (hdet : inp.detect = some pack)
    (hguard : inp.overwrite = true ∨
      (inp.dockerfileExists = false ∧ inp.serviceYmlExists = false))
    (ha : pack.analyzeErr = none) (hw : pack.writeDockerfileErr = none)
    (hws : pack.writeServiceYAMLErr = none)
    (hwc : pack.writeDockerComposeErr = none) :
    (analyze true inp).1 =
      [RunEvent.detectCalled, RunEvent.analyzeCalled, RunEvent.writeDockerfileCalled]
        ++ (if strContains inp.generator "service"
            then [RunEvent.writeServiceCalled] else [])
        ++ (if strContains inp.generator "docker-compose"
            then [RunEvent.writeComposeCalled] else []) := by
  rw [analyze_ok_path inp pack hsync hdet hguard,
    analyzePhase_ok inp.generator pack [RunEvent.detectCalled] ha hw hws hwc]
  simp

/-- Witness for C3: generator "dockerfile" produces only the Dockerfile
write; generator "dockerfile,service" adds the service write and not the
compose write. -/
theorem analyze_generator_selection_witness :
    (analyze true baseInput).1 =
      [RunEvent.detectCalled, RunEvent.analyzeCalled,
       RunEvent.writeDockerfileCalled] ∧
    (analyze true c3InputB).1 =
      [RunEvent.detectCalled, RunEvent.analyzeCalled,
       RunEvent.writeDockerfileCalled, RunEvent.writeServiceCalled] := by
  have hA := analyze_generator_selection baseInput okPack rfl rfl
    (Or.inr ⟨rfl, rfl⟩) rfl rfl rfl rfl
  have hB := analyze_generator_selection c3InputB okPack rfl rfl
    (Or.inr ⟨rfl, rfl⟩) rfl rfl rfl rfl
  refine ⟨?_, ?_⟩
  · rw [hA]; decide
  · rw [hB]; decide

/-- C7: the success result. On an all-success run, `analyze` returns `ok`
with language, framework and framework version taken from the collaborator
and warnings equal to the collaborator's accumulated message list in order;
this holds for every message list, so warnings never cause a failure. -/
theorem analyze_success_result (inp : AnalyzeInput) (pack : Pack)
    (hsync : analyzeSyncErr true inp = none)
    (hdet : inp.detect = some pack)
    (hguard : inp.overwrite = true ∨
      (inp.dockerfileExists = false ∧ inp.serviceYmlExists = false))
    (ha : pack.analyzeErr = none) (hw : pack.writeDockerfileErr = none)
    (hws : pack.writeServiceYAMLErr = none)
    (hwc : pack.writeDockerComposeErr = none) :
    (analyze true inp).2 =
      Except.ok { warnings := pack.messages, ok := true, language := pack.packName,
                  framework := pack.framework,
                  frameworkVersion := pack.frameworkVersion } := by
  rw [analyze_ok_path inp pack hsync hdet hguard,
    analyzePhase_ok inp.generator pack [RunEvent.detectCalled] ha hw hws hwc]

/-- Witness for C7 at a concrete all-success run. -/
theorem analyze_success_result_witness :
    (analyze true c7Input).2 =
      Except.ok { warnings := okPack.messages, ok := true,
                  language := okPack.packName, framework := okPack.framework,
                  frameworkVersion := okPack.frameworkVersion } :=
  analyze_success_result c7Input okPack rfl rfl (Or.inr ⟨rfl, rfl⟩) rfl rfl rfl rfl

/-- C10: the guard never checks docker-compose.yml. On a project whose
docker-compose.yml already exists, with overwrite false and a generator
containing "docker-compose", an otherwise all-success run still succeeds
(so no already-exists failure is raised for that file) and the compose
writer is invoked. -/
theorem analyze_compose_not_guarded (inp : AnalyzeInput) (pack : Pack)
    (hsync : analyzeSyncErr true inp = none)
    (hdet : inp.detect = some pack)
    (hcompose : inp.dockerComposeYmlExists = true)
    (hov : inp.overwrite = false)
    (hd : inp.dockerfileExists = false)
    (hs : inp.serviceYmlExists = false)
    (hgen : strContains inp.generator "docker-compose" = true)
    (ha : pack.analyzeErr = none) (hw : pack.writeDockerfileErr = none)
    (hws : pack.writeServiceYAMLErr = none)
    (hwc : pack.writeDockerComposeErr = none) :
    RunEvent.writeComposeCalled ∈ (analyze true inp).1 ∧
    (analyze true inp).2 =
      Except.ok { warnings := pack.messages, ok := true, language := pack.packName,
                  framework := pack.framework,
                  frameworkVersion := pack.frameworkVersion } := by
  have hred := analyze_ok_path inp pack hsync hdet (Or.inr ⟨hd, hs⟩)
  have hphase := analyzePhase_ok inp.generator pack [RunEvent.detectCalled]
    ha hw hws hwc
  rw [hred, hphase]
  refine ⟨?_, rfl⟩
  simp [hgen]

/-- Witness for C10: an existing docker-compose.yml with overwrite off and
generator "docker-compose". -/
theorem analyze_compose_not_guarded_witness :
    RunEvent.writeComposeCalled ∈ (analyze true c10Input).1 ∧
    (analyze true c10Input).2 =
      Except.ok { warnings := okPack.messages, ok := true,
                  language := okPack.packName, framework := okPack.framework,
                  frameworkVersion := okPack.frameworkVersion } :=
  analyze_compose_not_guarded c10Input okPack rfl rfl rfl rfl rfl rfl
    (by decide) rfl rfl rfl rfl

/-! ## Claim theorems: daemon mode -/

/-- C8, counterexample: in daemon mode with a non-empty configuration path
that does not exist, the program does not fall back to the default
configuration; it prints an error and exits with code 1. -/
theorem resolveConfig_missing_path_cex :
    resolveConfig true "starter.json" false true = ConfigOutcome.exitFailure ∧
    resolveConfig true "starter.json" false true ≠ ConfigOutcome.useDefaults := by
  exact ⟨by decide, by decide⟩

/-- C8 (amended): in daemon mode a non-empty `-c` path that does not exist
makes startup exit with code 1; the default configuration is used only when
no `-c` path is given. -/
theorem resolveConfig_daemon_config (p : String) (e r : Bool) (hp : p ≠ "") :
    resolveConfig true p false r = ConfigOutcome.exitFailure ∧
    resolveConfig true "" e r = ConfigOutcome.useDefaults := by
  unfold resolveConfig
  refine ⟨?_, ?_⟩
  · rw [if_pos ⟨rfl, hp⟩, if_pos rfl]
  · rw [if_neg]
    simp

/-- Witness for the amended C8. -/
theorem resolveConfig_daemon_config_witness :
    resolveConfig true "starter.json" false true = ConfigOutcome.exitFailure ∧
    resolveConfig true "" true true = ConfigOutcome.useDefaults :=
  resolveConfig_daemon_config "starter.json" true true (by decide)

/-- C9: the daemon shutdown handshake. After startup, with no interrupt
delivered and no pending cleanup message, the process has no enabled
transition (it blocks); delivering an interrupt enables exactly the signal
goroutine's step (receive the signal, send on the cleanup channel), after
which exactly the main goroutine's step is enabled, ending in the exited
phase with code 0. -/
theorem daemon_shutdown_handshake :
    daemonSteps { pendingSignal := false, cleanupMsg := false,
                  phase := DaemonPhase.listening } = [] ∧
    daemonSteps { pendingSignal := true, cleanupMsg := false,
                  phase := DaemonPhase.listening } =
      [{ pendingSignal := false, cleanupMsg := true,
         phase := DaemonPhase.listening }] ∧
    daemonSteps { pendingSignal := false, cleanupMsg := true,
                  phase := DaemonPhase.listening } =
      [{ pendingSignal := false, cleanupMsg := false,
         phase := DaemonPhase.exited 0 }] ∧
    daemonSteps { pendingSignal := false, cleanupMsg := false,
                  phase := DaemonPhase.exited 0 } = [] := by
  decide

end Starter
